import Mathlib

/-!
Verification of the customer-segmentation pipeline
(`src/model_monitor.py`, `src/customer_segmentation.py`, `src/train.py`,
`src/database.py`) against its natural-language specification.

The Python code is shallowly embedded: real numbers become rationals,
DataFrames become association lists from column name to value list, raised
exceptions become `Except`, and the external libraries the code calls into
(scipy, numpy, sklearn, pandas) are modelled at the level of the operations
the code uses, following each library's documented behaviour.
-/

/-- A pandas DataFrame restricted to numeric columns: an association list from
column name to that column's values, in column order.  Floats are modelled as
rationals. -/
structure DataFrame where
  data : List (String × List ℚ)
deriving DecidableEq

/-- The column names in order (pandas `df.columns`). -/
def DataFrame.columns (df : DataFrame) : List String :=
  df.data.map Prod.fst

/-- Column lookup `df[c]`; `none` models the pandas `KeyError` case. -/
def DataFrame.col (df : DataFrame) (c : String) : Option (List ℚ) :=
  (df.data.find? (fun p => decide (p.1 = c))).map Prod.snd

/-- Errors raised by the Python code (library exceptions), together with the
specification's error taxonomy (`emptyDatasetError`, `missingFeatureError`,
`misalignedBatchError`).  The source never raises the taxonomy errors; their
constructors exist so that claims naming them can be stated and compared with
what the code actually raises. -/
inductive PyError where
  | keyError : List String → PyError
  | valueError : String → PyError
  | broadcastError : PyError
  | emptyDatasetError : PyError
  | missingFeatureError : String → PyError
  | misalignedBatchError : PyError
deriving DecidableEq

/-- Absolute value on ℚ by an explicit sign test, so that concrete inputs
evaluate by kernel reduction; equal to `|·|` by `qabs_eq_abs`. -/
def qabs (a : ℚ) : ℚ :=
  if a < 0 then -a else a

/-- Binary maximum on ℚ by an explicit comparison, so that concrete inputs
evaluate by kernel reduction; equal to `max` by `qmax_eq_max`. -/
def qmax (a b : ℚ) : ℚ :=
  if a ≤ b then b else a

theorem qabs_eq_abs (a : ℚ) : qabs a = |a| := by
  unfold qabs
  split
  · exact (abs_of_neg (by assumption)).symm
  · exact (abs_of_nonneg (le_of_not_lt (by assumption))).symm

theorem qmax_eq_max (a b : ℚ) : qmax a b = max a b := by
  unfold qmax
  split
  · exact (max_eq_right (by assumption)).symm
  · exact (max_eq_left (le_of_not_le (by assumption))).symm

/-- Empirical CDF of a sample at a point: the fraction of observations `≤ t`
(scipy evaluates it as `searchsorted(data, t, side="right") / n`). -/
def ecdf (xs : List ℚ) (t : ℚ) : ℚ :=
  (xs.countP (fun x => decide (x ≤ t)) : ℚ) / (xs.length : ℚ)

/-- Two-sample Kolmogorov–Smirnov statistic: the largest absolute difference
between the two empirical CDFs, attained at one of the pooled data points. -/
def ksStat (xs ys : List ℚ) : ℚ :=
  ((xs ++ ys).map (fun t => qabs (ecdf xs t - ecdf ys t))).foldr qmax 0

/-- Whether lattice vertex `(i, j)` lies strictly inside the KS band:
`|i * n2 - j * n1| < t` (with `t = d * n1 * n2` this is `|i/n1 - j/n2| < d`). -/
def ksBand (t : ℚ) (n1 n2 i j : ℕ) : Bool :=
  decide (qabs ((i : ℚ) * (n2 : ℚ) - (j : ℚ) * (n1 : ℚ)) < t)

/-- One row of the path-counting dynamic program for the exact two-sample KS
p-value: walking cell `(i, j)` for `j = 0, 1, …`, `left` is the count at
`(i, j-1)` (0 at `j = 0`) and `prev` lists the counts at `(i-1, j), …`; a cell
strictly inside the band receives `left + above`, any other cell 0. -/
def ksRowStep (t : ℚ) (n1 n2 i : ℕ) : ℕ → ℕ → List ℕ → List ℕ
  | _, _, [] => []
  | j, left, p :: ps =>
    let c := if ksBand t n1 n2 i j then left + p else 0
    c :: ksRowStep t n1 n2 i (j + 1) c ps

/-- Rows of the KS dynamic program: row `i` lists the number of monotone
lattice paths from `(0,0)` to `(i, j)`, `j = 0 … n2`, all of whose vertices
stay strictly inside the band.  Row 0 is seeded with a virtual predecessor row
`1, 0, …, 0`, so its cells propagate from the single path at the origin. -/
def ksRows (t : ℚ) (n1 n2 : ℕ) : ℕ → List ℕ
  | 0 => ksRowStep t n1 n2 0 0 0 (1 :: List.replicate n2 0)
  | i + 1 => ksRowStep t n1 n2 (i + 1) 0 0 (ksRows t n1 n2 i)

/-- Number of monotone lattice paths from `(0,0)` to `(n1, n2)` all of whose
vertices `(a,b)` satisfy `|a * n2 - b * n1| < t`: the dynamic program behind
scipy's exact two-sided two-sample KS p-value. -/
def ksInside (t : ℚ) (n1 n2 : ℕ) : ℕ :=
  (ksRows t n1 n2 n1).getD n2 0

/-- Exact two-sided p-value of the two-sample KS test:
`P(D ≥ d) = 1 - (paths strictly inside the band) / C(n1+n2, n1)`.
Models `scipy.stats.ks_2samp` in its exact mode (the mode scipy selects for
small samples under `mode="auto"`). -/
def ksPValue (xs ys : List ℚ) : ℚ :=
  1 - (ksInside (ksStat xs ys * (xs.length : ℚ) * (ys.length : ℚ))
        xs.length ys.length : ℚ) /
      ((xs.length + ys.length).choose xs.length : ℚ)

/-- Sorted insertion used by `sortQ`. -/
def insertSorted (x : ℚ) : List ℚ → List ℚ
  | [] => [x]
  | y :: ys => if x ≤ y then x :: y :: ys else y :: insertSorted x ys

/-- Insertion sort on ℚ, standing in for numpy's sort of the pooled values. -/
def sortQ (l : List ℚ) : List ℚ :=
  l.foldr insertSorted []

/-- One-dimensional Wasserstein distance between the two empirical
distributions: the integral of `|F1 - F2|`, summed gap by gap over the pooled
sorted values (models `scipy.stats.wasserstein_distance` with uniform
weights). -/
def wassersteinDistance (xs ys : List ℚ) : ℚ :=
  let pts := sortQ (xs ++ ys)
  (List.zipWith (fun a b => qabs (ecdf xs a - ecdf ys a) * (b - a)) pts (pts.drop 1)).sum

/-- `scipy.stats.ks_2samp`: raises `ValueError` when either sample is empty,
otherwise returns the pair (statistic, p-value). -/
def ks_2samp (xs ys : List ℚ) : Except PyError (ℚ × ℚ) :=
  if xs.isEmpty || ys.isEmpty then
    .error (.valueError "Data passed to ks_2samp must not be empty")
  else
    .ok (ksStat xs ys, ksPValue xs ys)

/-- The drift monitor's state: `ModelMonitor.__init__` keeps the configured
drift threshold. -/
structure ModelMonitor where
  drift_threshold : ℚ
deriving DecidableEq

/-- `ModelMonitor.__init__`: reads `drift_threshold` from the loaded
configuration dictionary via `config.get("drift_threshold", 0.05)`, so an
absent entry defaults to 0.05. -/
def mkModelMonitor (config : List (String × ℚ)) : ModelMonitor :=
  ⟨((config.find? (fun p => decide (p.1 = "drift_threshold"))).map Prod.snd).getD (1/20)⟩

/-- One feature's entry in the dictionary built by `detect_data_drift`. -/
structure DriftMetric where
  ks_statistic : ℚ
  p_value : ℚ
  wasserstein_distance : ℚ
  drift_detected : Bool
deriving DecidableEq

/-- Body of the `for feature in features` loop of `detect_data_drift`: look
the feature up in both frames (pandas raises `KeyError` when a column is
absent), run the KS test and the Wasserstein distance, and flag drift exactly
when the p-value is strictly below the configured threshold
(`p_value < self.drift_threshold`). -/
def detectFeature (m : ModelMonitor) (cur rf : DataFrame) (f : String) :
    Except PyError DriftMetric :=
  match cur.col f with
  | none => .error (.keyError [f])
  | some xs =>
    match rf.col f with
    | none => .error (.keyError [f])
    | some ys =>
      match ks_2samp xs ys with
      | .error e => .error e
      | .ok kp =>
        .ok ⟨kp.1, kp.2, wassersteinDistance xs ys, decide (kp.2 < m.drift_threshold)⟩

/-- `ModelMonitor.detect_data_drift`: the Python result dictionary in
insertion order, as an association list from feature name to its metrics; an
exception raised at any feature aborts the whole call. -/
def detect_data_drift (m : ModelMonitor) (cur rf : DataFrame) :
    List String → Except PyError (List (String × DriftMetric))
  | [] => .ok []
  | f :: fs =>
    match detectFeature m cur rf f with
    | .error e => .error e
    | .ok dm =>
      match detect_data_drift m cur rf fs with
      | .error e => .error e
      | .ok rest => .ok ((f, dm) :: rest)

/-- numpy 1-d broadcasting of a pair of arrays: equal lengths pass through, a
length-one array is stretched to the other's length, anything else raises the
broadcast `ValueError`. -/
def npBroadcastPair {α : Type} (z : α) (a b : List α) :
    Except PyError (List α × List α) :=
  if a.length = b.length then .ok (a, b)
  else if a.length = 1 then .ok (List.replicate b.length (a.headD z), b)
  else if b.length = 1 then .ok (a, List.replicate a.length (b.headD z))
  else .error .broadcastError

/-- `np.mean(cur == ref)` on integer label arrays: broadcast, then the
fraction of coinciding positions.  (On two empty arrays numpy's mean emits NaN
with a warning; that point lies outside every claim and the model yields 0
there.) -/
def npMeanEq (cur rf : List ℤ) : Except PyError ℚ :=
  match npBroadcastPair 0 cur rf with
  | .error e => .error e
  | .ok p =>
    .ok ((List.zipWith (fun x y => if x = y then (1 : ℚ) else 0) p.1 p.2).sum
          / (p.1.length : ℚ))

/-- The counts array produced by `np.bincount` on a nonempty array of
nonnegative entries: occurrence counts of each value `0 … max`. -/
def bincountList (l : List ℤ) : List ℕ :=
  (List.range ((l.map Int.toNat).foldr Nat.max 0 + 1)).map
    (fun (k : ℕ) => l.countP (fun x => decide (x = (k : ℤ))))

/-- `np.bincount`: raises `ValueError` on a negative entry; the empty array
yields the empty counts array. -/
def npBincount (xs : List ℤ) : Except PyError (List ℕ) :=
  if xs.any (fun x => decide (x < 0)) then
    .error (.valueError "bincount: first argument must be nonnegative")
  else if xs.isEmpty then .ok []
  else .ok (bincountList xs)

/-- Normalisation `dist / np.sum(dist)` of a counts vector. -/
def npNormalize (v : List ℕ) : List ℚ :=
  v.map (fun (x : ℕ) => (x : ℚ) / (v.sum : ℚ))

/-- The dictionary returned by `monitor_model_performance`. -/
structure PerformanceMetrics where
  accuracy : ℚ
  distribution_difference : ℚ
deriving DecidableEq

/-- `ModelMonitor.monitor_model_performance`: the agreement fraction of the
two label arrays, plus the l1 distance between the two normalised `bincount`
histograms (the subtraction again subject to numpy broadcasting). -/
def monitor_model_performance (model_type : String) (cur rf : List ℤ) :
    Except PyError PerformanceMetrics :=
  match npMeanEq cur rf with
  | .error e => .error e
  | .ok accuracy =>
    match npBincount cur with
    | .error e => .error e
    | .ok cd =>
      match npBincount rf with
      | .error e => .error e
      | .ok rd =>
        match npBroadcastPair (0 : ℚ) (npNormalize cd) (npNormalize rd) with
        | .error e => .error e
        | .ok p => .ok ⟨accuracy, (List.zipWith (fun x y => qabs (x - y)) p.1 p.2).sum⟩

/-- The dictionary returned by `check_model_health`. -/
structure HealthReport where
  drift_metrics : List (String × DriftMetric)
  performance_metrics : PerformanceMetrics
  significant_drift : Bool
deriving DecidableEq

/-- `ModelMonitor.check_model_health`.  Loading the persisted scaler, PCA and
clustering model and pushing a frame through them
(`model.predict(pca.transform(scaler.transform(data)))`) is external sklearn
code operating on joblib artifacts; it is modelled by the function argument
`predictPipeline`.  Drift detection runs over `current_data.columns`.  The
email side effects change no returned data and are omitted; any error escapes
the function (the `except` block ends in `raise`). -/
def check_model_health (m : ModelMonitor) (predictPipeline : DataFrame → List ℤ)
    (model_type : String) (cur rf : DataFrame) : Except PyError HealthReport :=
  match detect_data_drift m cur rf cur.columns with
  | .error e => .error e
  | .ok dm =>
    match monitor_model_performance model_type (predictPipeline cur) (predictPipeline rf) with
    | .error e => .error e
    | .ok pm => .ok ⟨dm, pm, dm.any (fun e => e.2.drift_detected)⟩

/-- Decidable equality for `Except`, used only to evaluate the embedded
functions on explicit inputs in the concrete instantiation theorems. -/
instance {ε α : Type} [DecidableEq ε] [DecidableEq α] :
    DecidableEq (Except ε α) := fun a b =>
  match a, b with
  | .error x, .error y =>
    if h : x = y then isTrue (h ▸ rfl) else
      isFalse (by intro hh; cases hh; exact h rfl)
  | .ok x, .ok y =>
    if h : x = y then isTrue (h ▸ rfl) else
      isFalse (by intro hh; cases hh; exact h rfl)
  | .error _, .ok _ => isFalse (by intro hh; cases hh)
  | .ok _, .error _ => isFalse (by intro hh; cases hh)

/-- Inverting a successful `detectFeature` call: both columns exist and are
nonempty, and the metric is the one built in the loop body. -/
theorem detectFeature_ok {m : ModelMonitor} {cur rf : DataFrame} {f : String}
    {dm : DriftMetric} (h : detectFeature m cur rf f = .ok dm) :
    ∃ xs ys, cur.col f = some xs ∧ rf.col f = some ys ∧
      xs.isEmpty = false ∧ ys.isEmpty = false ∧
      dm = ⟨ksStat xs ys, ksPValue xs ys, wassersteinDistance xs ys,
            decide (ksPValue xs ys < m.drift_threshold)⟩ := by
  unfold detectFeature at h
  split at h
  · cases h
  rename_i xs hc
  split at h
  · cases h
  rename_i ys hr
  split at h
  · cases h
  rename_i kp hks
  cases h
  unfold ks_2samp at hks
  by_cases hxy : (xs.isEmpty || ys.isEmpty) = true
  · rw [if_pos hxy] at hks; cases hks
  · rw [if_neg hxy] at hks
    cases hks
    rw [Bool.or_eq_true] at hxy
    push_neg at hxy
    exact ⟨xs, ys, hc, hr,
      Bool.eq_false_iff.mpr hxy.1, Bool.eq_false_iff.mpr hxy.2, rfl⟩

/-- Inverting a successful `detect_data_drift` call: the report lists exactly
the requested features, in order, each with a successful per-feature entry. -/
theorem detect_data_drift_ok_spec (m : ModelMonitor) (cur rf : DataFrame) :
    ∀ (fs : List String) (res : List (String × DriftMetric)),
      detect_data_drift m cur rf fs = .ok res →
      res.map Prod.fst = fs ∧
      ∀ f ∈ fs, ∃ dm, (f, dm) ∈ res ∧ detectFeature m cur rf f = .ok dm := by
  intro fs
  induction fs with
  | nil =>
    intro res h
    unfold detect_data_drift at h
    cases h
    simp
  | cons f fs ih =>
    intro res h
    unfold detect_data_drift at h
    cases h1 : detectFeature m cur rf f with
    | error e => rw [h1] at h; cases h
    | ok dm =>
      rw [h1] at h
      cases h2 : detect_data_drift m cur rf fs with
      | error e => rw [h2] at h; cases h
      | ok rest =>
        rw [h2] at h
        cases h
        obtain ⟨ihmap, ihmem⟩ := ih rest h2
        constructor
        · simp [ihmap]
        · intro g hg
          rcases List.mem_cons.mp hg with hg | hg
          · subst hg
            exact ⟨dm, List.mem_cons_self _ _, h1⟩
          · obtain ⟨dm2, hmem, hok⟩ := ihmem g hg
            exact ⟨dm2, List.mem_cons_of_mem _ hmem, hok⟩

/-- C1: for every feature in the supplied feature list, `detect_data_drift`
returns a report for that feature whose `drift_detected` boolean is true iff
the KS test p-value is strictly below the configured threshold, and the
threshold configured by `ModelMonitor.__init__` defaults to 0.05 when the
configuration has no `drift_threshold` entry. -/
theorem claim1_drift_flag_iff_pvalue_below_threshold
    (m : ModelMonitor) (cur rf : DataFrame) (fs : List String)
    (res : List (String × DriftMetric))
    (h : detect_data_drift m cur rf fs = .ok res) :
    (∀ f ∈ fs, ∃ dm, (f, dm) ∈ res ∧
        (dm.drift_detected = true ↔ dm.p_value < m.drift_threshold))
    ∧ ∀ config : List (String × ℚ), "drift_threshold" ∉ config.map Prod.fst →
        (mkModelMonitor config).drift_threshold = 1 / 20 := by
  constructor
  · intro f hf
    obtain ⟨-, hmem⟩ := detect_data_drift_ok_spec m cur rf fs res h
    obtain ⟨dm, hdm, hfeat⟩ := hmem f hf
    refine ⟨dm, hdm, ?_⟩
    obtain ⟨xs, ys, -, -, -, -, hdm_eq⟩ := detectFeature_ok hfeat
    subst hdm_eq
    simp
  · intro config hconf
    unfold mkModelMonitor
    have hnone : config.find? (fun p => decide (p.1 = "drift_threshold")) = none := by
      apply List.find?_eq_none.mpr
      intro x hx
      simp only [decide_eq_true_eq]
      intro hx1
      exact hconf (hx1 ▸ List.mem_map_of_mem Prod.fst hx)
    rw [hnone]
    rfl

/-- A one-column frame used to instantiate the monitoring theorems. -/
def dfA : DataFrame := ⟨[("a", [0])]⟩

/-- The monitor built from an empty configuration (threshold 0.05). -/
def mm0 : ModelMonitor := mkModelMonitor []

/-- Concrete instantiation of C1: the monitor with default configuration on a
one-point column compared with itself. -/
theorem claim1_witness :
    detect_data_drift mm0 dfA dfA ["a"] = .ok [("a", ⟨0, 1, 0, false⟩)] ∧
    ((∀ f ∈ ["a"], ∃ dm, (f, dm) ∈ [("a", (⟨0, 1, 0, false⟩ : DriftMetric))] ∧
        (dm.drift_detected = true ↔ dm.p_value < mm0.drift_threshold))
      ∧ ∀ config : List (String × ℚ), "drift_threshold" ∉ config.map Prod.fst →
          (mkModelMonitor config).drift_threshold = 1 / 20) :=
  ⟨by with_unfolding_all rfl,
    claim1_drift_flag_iff_pvalue_below_threshold mm0 dfA dfA ["a"]
      [("a", ⟨0, 1, 0, false⟩)] (by with_unfolding_all rfl)⟩

/-- C2: whenever `check_model_health` completes without raising, its
`significant_drift` flag is true iff at least one feature's per-feature report
has its `drift_detected` boolean set to true. -/
theorem claim2_significant_drift_iff_any_feature_drift
    (m : ModelMonitor) (pp : DataFrame → List ℤ) (mt : String)
    (cur rf : DataFrame) (r : HealthReport)
    (h : check_model_health m pp mt cur rf = .ok r) :
    r.significant_drift = true ↔
      ∃ e ∈ r.drift_metrics, e.2.drift_detected = true := by
  unfold check_model_health at h
  split at h
  · cases h
  split at h
  · cases h
  cases h
  simp [List.any_eq_true]

/-- The health report produced on `dfA` against itself with a constant
predictor. -/
def hr0 : HealthReport := ⟨[("a", ⟨0, 1, 0, false⟩)], ⟨1, 0⟩, false⟩

/-- Concrete instantiation of C2: a completing health check over the
one-point frame `dfA` against itself. -/
theorem claim2_witness :
    check_model_health mm0 (fun _ => [0]) "kmeans" dfA dfA = .ok hr0 ∧
    (hr0.significant_drift = true ↔
      ∃ e ∈ hr0.drift_metrics, e.2.drift_detected = true) :=
  ⟨by with_unfolding_all rfl,
    claim2_significant_drift_iff_any_feature_drift mm0 (fun _ => [0]) "kmeans"
      dfA dfA hr0 (by with_unfolding_all rfl)⟩

/-- C9: `check_model_health` runs drift detection over `current_data.columns`
(not the persisted feature list): a successful health check's drift report
lists exactly the columns of the current batch, and success requires every
such column to be present in the reference batch (so a current column missing
from the reference makes the whole check raise). -/
theorem claim9_drift_report_features_are_current_columns
    (m : ModelMonitor) (pp : DataFrame → List ℤ) (mt : String)
    (cur rf : DataFrame) (r : HealthReport)
    (h : check_model_health m pp mt cur rf = .ok r) :
    r.drift_metrics.map Prod.fst = cur.columns ∧
    ∀ f ∈ cur.columns, (rf.col f).isSome = true := by
  unfold check_model_health at h
  split at h
  · cases h
  rename_i dm hdm
  split at h
  · cases h
  cases h
  obtain ⟨hmap, hmem⟩ := detect_data_drift_ok_spec m cur rf cur.columns dm hdm
  refine ⟨hmap, ?_⟩
  intro f hf
  obtain ⟨dmf, -, hok⟩ := hmem f hf
  obtain ⟨xs, ys, -, hys, -, -, -⟩ := detectFeature_ok hok
  simp [hys]

/-- Concrete instantiation of C9: a completing health check over `dfA`. -/
theorem claim9_witness :
    check_model_health mm0 (fun _ => [1]) "dbscan" dfA dfA = .ok hr0 ∧
    (hr0.drift_metrics.map Prod.fst = dfA.columns ∧
      ∀ f ∈ dfA.columns, (dfA.col f).isSome = true) :=
  ⟨by with_unfolding_all rfl,
    claim9_drift_report_features_are_current_columns mm0 (fun _ => [1]) "dbscan"
      dfA dfA hr0 (by with_unfolding_all rfl)⟩

theorem qabs_nonneg (a : ℚ) : 0 ≤ qabs a := by
  rw [qabs_eq_abs]; exact abs_nonneg a

theorem qabs_zero : qabs 0 = 0 := by
  rw [qabs_eq_abs]; exact abs_zero

theorem foldr_qmax_map_zero {α : Type} (l : List α) :
    (l.map (fun _ => (0 : ℚ))).foldr qmax 0 = 0 := by
  induction l with
  | nil => rfl
  | cons a l ih =>
    rw [List.map_cons, List.foldr_cons, ih]
    unfold qmax
    rw [if_pos le_rfl]

/-- The KS statistic of a sample against itself is zero. -/
theorem ksStat_self (xs : List ℚ) : ksStat xs xs = 0 := by
  unfold ksStat
  rw [List.map_congr_left (g := fun _ => (0 : ℚ)) (fun t _ => by rw [sub_self, qabs_zero])]
  exact foldr_qmax_map_zero _

/-- With a nonpositive band width no cell is strictly inside the band, so
every row step yields only zero cells. -/
theorem ksRowStep_nonpos (t : ℚ) (ht : t ≤ 0) (n1 n2 i : ℕ) :
    ∀ (prev : List ℕ) (j left : ℕ),
      ksRowStep t n1 n2 i j left prev = List.replicate prev.length 0 := by
  intro prev
  induction prev with
  | nil => intro j left; rfl
  | cons p ps ih =>
    intro j left
    unfold ksRowStep
    have hb : ksBand t n1 n2 i j = false := by
      unfold ksBand
      rw [decide_eq_false]
      exact not_lt.mpr (le_trans ht (qabs_nonneg _))
    rw [hb]
    simp [ih, List.replicate_succ]

/-- With a nonpositive band width every row of the dynamic program is all
zeros. -/
theorem ksRows_nonpos (t : ℚ) (ht : t ≤ 0) (n1 n2 : ℕ) :
    ∀ i, ksRows t n1 n2 i = List.replicate (n2 + 1) 0 := by
  intro i
  induction i with
  | zero =>
    unfold ksRows
    rw [ksRowStep_nonpos t ht]
    simp
  | succ i ih =>
    unfold ksRows
    rw [ih, ksRowStep_nonpos t ht]
    simp

theorem getD_replicate_zero (n j : ℕ) : (List.replicate n (0 : ℕ)).getD j 0 = 0 := by
  induction n generalizing j with
  | zero => simp [List.getD]
  | succ n ih =>
    cases j with
    | zero => rfl
    | succ j => simpa [List.replicate] using ih j

/-- With a nonpositive band width no path counts as inside. -/
theorem ksInside_nonpos (t : ℚ) (ht : t ≤ 0) (n1 n2 : ℕ) :
    ksInside t n1 n2 = 0 := by
  unfold ksInside
  rw [ksRows_nonpos t ht, getD_replicate_zero]

/-- The exact KS p-value of a nonempty sample against itself is one: the
statistic is zero, so no lattice path stays strictly inside a width-zero
band. -/
theorem ksPValue_self (xs : List ℚ) : ksPValue xs xs = 1 := by
  unfold ksPValue
  rw [ksStat_self, zero_mul, zero_mul, ksInside_nonpos 0 le_rfl]
  simp

/-- Comparing a present nonempty column with itself yields p-value 1 and, for
any threshold at most 1, no drift flag. -/
theorem detectFeature_self (m : ModelMonitor) (hm : m.drift_threshold ≤ 1)
    (df : DataFrame) (f : String) (xs : List ℚ) (hc : df.col f = some xs)
    (hx : xs ≠ []) :
    detectFeature m df df f = .ok ⟨0, 1, wassersteinDistance xs xs, false⟩ := by
  have hxe : xs.isEmpty = false := by
    cases xs with
    | nil => exact absurd rfl hx
    | cons a t => rfl
  have h2 : ks_2samp xs xs = .ok (0, 1) := by
    unfold ks_2samp
    rw [if_neg (by simp [hxe]), ksStat_self, ksPValue_self xs]
  unfold detectFeature
  simp only [hc, h2]
  simp [decide_eq_false (not_lt.mpr hm)]

/-- Drift detection of a frame against itself succeeds on any feature list
whose columns are present and nonempty, and flags no drift when the threshold
is at most 1. -/
theorem detect_data_drift_self (m : ModelMonitor) (hm : m.drift_threshold ≤ 1)
    (df : DataFrame) :
    ∀ fs : List String, (∀ f ∈ fs, ∃ xs, df.col f = some xs ∧ xs ≠ []) →
      ∃ res, detect_data_drift m df df fs = .ok res ∧
        ∀ e ∈ res, e.2.drift_detected = false := by
  intro fs
  induction fs with
  | nil => intro _; exact ⟨[], rfl, by simp⟩
  | cons f fs ih =>
    intro h
    obtain ⟨xs, hc, hx⟩ := h f (List.mem_cons_self f fs)
    obtain ⟨res, hres, hflags⟩ := ih (fun g hg => h g (List.mem_cons_of_mem f hg))
    refine ⟨(f, ⟨0, 1, wassersteinDistance xs xs, false⟩) :: res, ?_, ?_⟩
    · unfold detect_data_drift
      simp only [detectFeature_self m hm df f xs hc hx, hres]
    · intro e he
      rcases List.mem_cons.mp he with he | he
      · subst he; rfl
      · exact hflags e he

theorem npBroadcastPair_self {α : Type} (z : α) (a : List α) :
    npBroadcastPair z a a = .ok (a, a) := by
  unfold npBroadcastPair
  rw [if_pos rfl]

theorem zipWith_ifeq_sum_self (l : List ℤ) :
    (List.zipWith (fun x y => if x = y then (1 : ℚ) else 0) l l).sum = l.length := by
  induction l with
  | nil => simp
  | cons a t ih =>
    simp only [List.zipWith_cons_cons, List.sum_cons, ih, if_pos rfl,
      List.length_cons]
    push_cast
    ring

theorem zipWith_qabs_sub_self_sum (v : List ℚ) :
    (List.zipWith (fun x y => qabs (x - y)) v v).sum = 0 := by
  induction v with
  | nil => rfl
  | cons a t ih =>
    simp only [List.zipWith_cons_cons, List.sum_cons, ih, sub_self, qabs_zero]
    ring

/-- Comparing a nonempty, nonnegative label sequence with itself reports full
agreement and zero histogram discrepancy. -/
theorem monitor_model_performance_self (mt : String) (l : List ℤ) (hne : l ≠ [])
    (hnn : ∀ x ∈ l, 0 ≤ x) :
    monitor_model_performance mt l l = .ok ⟨1, 0⟩ := by
  have hany : l.any (fun x => decide (x < 0)) = false := by
    rw [List.any_eq_false]
    intro x hx
    simp [not_lt.mpr (hnn x hx)]
  have hemp : l.isEmpty = false := by
    cases l with
    | nil => exact absurd rfl hne
    | cons a t => rfl
  have hlen : (l.length : ℚ) ≠ 0 :=
    Nat.cast_ne_zero.mpr (Nat.pos_iff_ne_zero.mp (List.length_pos.mpr hne))
  have hmean : npMeanEq l l = .ok 1 := by
    unfold npMeanEq
    rw [npBroadcastPair_self]
    simp only [zipWith_ifeq_sum_self]
    rw [div_self hlen]
  obtain ⟨v, hv⟩ : ∃ v, npBincount l = .ok v := by
    unfold npBincount
    rw [if_neg (by simp [hany]), if_neg (by simp [hemp])]
    exact ⟨_, rfl⟩
  unfold monitor_model_performance
  simp only [hmean, hv, npBroadcastPair_self, zipWith_qabs_sub_self_sum]

/-- C3 counterexample: the batches are identical (both label sequences are the
single DBSCAN noise label `-1`), yet `monitor_model_performance` raises
numpy's bincount `ValueError` instead of reporting full agreement and a zero
label-distribution discrepancy. -/
theorem claim3_counterexample :
    monitor_model_performance "dbscan" [(-1 : ℤ)] [(-1 : ℤ)] =
      .error (.valueError "bincount: first argument must be nonnegative") := by
  with_unfolding_all rfl

/-- C3 (amended): comparing a batch with an identical copy of itself reports
`drift_detected = false` for every feature and a performance delta of exactly
zero (agreement ratio 1, label-distribution discrepancy 0) — provided the
configured drift threshold is at most 1 (the default 0.05 qualifies), every
requested feature column is present and nonempty, and the shared label
sequence is nonempty and free of negative labels.  (With a negative label the
code raises in `np.bincount`, and scipy raises on empty columns.) -/
theorem claim3_identical_batches_no_drift_zero_delta
    (m : ModelMonitor) (hm : m.drift_threshold ≤ 1) (df : DataFrame)
    (fs : List String) (hf : ∀ f ∈ fs, ∃ xs, df.col f = some xs ∧ xs ≠ [])
    (mt : String) (l : List ℤ) (hne : l ≠ []) (hnn : ∀ x ∈ l, 0 ≤ x) :
    (∃ res, detect_data_drift m df df fs = .ok res ∧
      ∀ e ∈ res, e.2.drift_detected = false) ∧
    monitor_model_performance mt l l = .ok ⟨1, 0⟩ :=
  ⟨detect_data_drift_self m hm df fs hf,
    monitor_model_performance_self mt l hne hnn⟩

/-- Concrete instantiation of C3 (amended): the frame `dfA` against itself
with labels `[0]`. -/
theorem claim3_witness :
    (∃ res, detect_data_drift mm0 dfA dfA ["a"] = .ok res ∧
      ∀ e ∈ res, e.2.drift_detected = false) ∧
    monitor_model_performance "kmeans" [(0 : ℤ)] [(0 : ℤ)] = .ok ⟨1, 0⟩ :=
  claim3_identical_batches_no_drift_zero_delta mm0
    (by norm_num [mm0, mkModelMonitor]) dfA ["a"]
    (by
      intro f hfm
      rw [List.mem_singleton] at hfm
      subst hfm
      exact ⟨[0], by with_unfolding_all rfl, by simp⟩)
    "kmeans" [0] (by simp) (by simp)

theorem range_map_sum {M : Type} [AddCommMonoid M] (n : ℕ) (f : ℕ → M) :
    ((List.range n).map f).sum = ∑ i in Finset.range n, f i := by
  induction n with
  | zero => simp
  | succ n ih =>
    rw [List.range_succ]
    simp [ih, Finset.sum_range_succ]

theorem toNat_le_foldr_max :
    ∀ (l : List ℤ), ∀ x ∈ l, x.toNat ≤ (l.map Int.toNat).foldr Nat.max 0 := by
  intro l
  induction l with
  | nil => intro x hx; cases hx
  | cons a t ih =>
    intro x hx
    rcases List.mem_cons.mp hx with rfl | hx
    · simp [List.map_cons, List.foldr_cons, Nat.le_max_left]
    · exact le_trans (ih x hx)
        (by simp [List.map_cons, List.foldr_cons, Nat.le_max_right])

/-- Each entry of a list of integers inside `[0, n)` is counted exactly once
across the per-value counts, so the counts sum to the list's length. -/
theorem sum_countP_eq_length (n : ℕ) :
    ∀ (l : List ℤ), (∀ x ∈ l, 0 ≤ x ∧ x < (n : ℤ)) →
      (∑ k in Finset.range n, l.countP (fun x => decide (x = (k : ℤ)))) = l.length := by
  intro l
  induction l with
  | nil => intro _; simp
  | cons a t ih =>
    intro h
    have ha := h a (List.mem_cons_self a t)
    have ht : ∀ x ∈ t, 0 ≤ x ∧ x < (n : ℤ) :=
      fun x hx => h x (List.mem_cons_of_mem a hx)
    simp only [List.countP_cons]
    rw [Finset.sum_add_distrib, ih ht]
    have hsingle :
        (∑ k in Finset.range n,
          if (fun x => decide (x = (k : ℤ))) a = true then 1 else 0) = 1 := by
      simp only [decide_eq_true_eq]
      rw [Finset.sum_eq_single a.toNat]
      · rw [if_pos (Int.toNat_of_nonneg ha.1).symm]
      · intro b _ hbne
        rw [if_neg]
        intro hab
        exact hbne (by rw [hab, Int.toNat_natCast])
      · intro hnot
        exact absurd (Finset.mem_range.mpr (by omega)) hnot
    rw [hsingle]
    simp

theorem bincountList_sum (l : List ℤ) (hnn : ∀ x ∈ l, 0 ≤ x) :
    (bincountList l).sum = l.length := by
  unfold bincountList
  rw [range_map_sum]
  apply sum_countP_eq_length
  intro x hx
  have := toNat_le_foldr_max l x hx
  exact ⟨hnn x hx, by omega⟩

/-- Normalising the bincount divides each count by the list's length. -/
theorem npNormalize_bincountList (l : List ℤ) (hnn : ∀ x ∈ l, 0 ≤ x) :
    npNormalize (bincountList l) =
      (List.range ((l.map Int.toNat).foldr Nat.max 0 + 1)).map
        (fun (k : ℕ) =>
          (l.countP (fun x => decide (x = (k : ℤ))) : ℚ) / (l.length : ℚ)) := by
  unfold npNormalize
  rw [bincountList_sum l hnn]
  unfold bincountList
  rw [List.map_map]
  rfl

/-- Specification-side definition (from the spec's words): the agreement
ratio between same-index label sequences — the fraction of indices at which
the two labels coincide. -/
def agreementRatio (cur rf : List ℤ) : ℚ :=
  (List.zipWith (fun x y => if x = y then (1 : ℚ) else 0) cur rf).sum /
    (cur.length : ℚ)

/-- Specification-side definition (from the spec's words): the sum of
absolute differences between the two normalized label-frequency histograms,
taken over the labels `0 … max`. -/
def histogramDelta (cur rf : List ℤ) : ℚ :=
  ((List.range ((cur.map Int.toNat).foldr Nat.max 0 + 1)).map
    (fun (k : ℕ) =>
      qabs ((cur.countP (fun x => decide (x = (k : ℤ))) : ℚ) / (cur.length : ℚ) -
            (rf.countP (fun x => decide (x = (k : ℤ))) : ℚ) / (rf.length : ℚ)))).sum

/-- C6 counterexample: the two label sequences have equal length (three
entries each), yet `monitor_model_performance` raises numpy's broadcast
`ValueError` — the histograms have different lengths — instead of returning
the agreement ratio together with the histogram discrepancy; and no
`MisalignedBatchError` exists anywhere in the code. -/
theorem claim6_counterexample :
    monitor_model_performance "kmeans" [0, 0, 1] [0, 0, 2] =
        .error .broadcastError ∧
    ([0, 0, 1] : List ℤ).length = ([0, 0, 2] : List ℤ).length :=
  ⟨by with_unfolding_all rfl, rfl⟩

/-- C6 (amended): on label sequences of unequal length, neither of length
one, `monitor_model_performance` raises numpy's broadcast `ValueError` (the
code defines no `MisalignedBatchError`); on sequences of equal length it
returns the agreement ratio together with the sum of absolute differences of
the normalized label-frequency histograms — provided the sequences are
nonempty, all labels are nonnegative, and the two maximum labels coincide so
that the histograms align (otherwise the histogram subtraction itself
broadcasts or raises). -/
theorem claim6_monitor_performance_behaviour (mt : String) (cur rf : List ℤ) :
    (cur.length ≠ rf.length → cur.length ≠ 1 → rf.length ≠ 1 →
      monitor_model_performance mt cur rf = .error .broadcastError) ∧
    (cur.length = rf.length → cur ≠ [] →
      (∀ x ∈ cur, 0 ≤ x) → (∀ x ∈ rf, 0 ≤ x) →
      (cur.map Int.toNat).foldr Nat.max 0 = (rf.map Int.toNat).foldr Nat.max 0 →
      monitor_model_performance mt cur rf =
        .ok ⟨agreementRatio cur rf, histogramDelta cur rf⟩) := by
  constructor
  · intro hlen h1 h2
    unfold monitor_model_performance npMeanEq npBroadcastPair
    simp only [if_neg hlen, if_neg h1, if_neg h2]
  · intro hlen hne hnnc hnnr hmax
    have hrfne : rf ≠ [] := by
      intro h
      subst h
      simp only [List.length_nil] at hlen
      exact hne (List.length_eq_zero.mp hlen)
    have hanyc : cur.any (fun x => decide (x < 0)) = false := by
      rw [List.any_eq_false]
      intro x hx
      simp [not_lt.mpr (hnnc x hx)]
    have hanyr : rf.any (fun x => decide (x < 0)) = false := by
      rw [List.any_eq_false]
      intro x hx
      simp [not_lt.mpr (hnnr x hx)]
    have hempc : cur.isEmpty = false := by
      cases cur with
      | nil => exact absurd rfl hne
      | cons a t => rfl
    have hempr : rf.isEmpty = false := by
      cases rf with
      | nil => exact absurd rfl hrfne
      | cons a t => rfl
    have hmean : npMeanEq cur rf = .ok (agreementRatio cur rf) := by
      unfold npMeanEq npBroadcastPair agreementRatio
      simp only [if_pos hlen]
    have hbcc : npBincount cur = .ok (bincountList cur) := by
      unfold npBincount
      rw [if_neg (by simp [hanyc]), if_neg (by simp [hempc])]
    have hbcr : npBincount rf = .ok (bincountList rf) := by
      unfold npBincount
      rw [if_neg (by simp [hanyr]), if_neg (by simp [hempr])]
    have hNc := npNormalize_bincountList cur hnnc
    have hNr := npNormalize_bincountList rf hnnr
    have hlenN : (npNormalize (bincountList cur)).length =
        (npNormalize (bincountList rf)).length := by
      rw [hNc, hNr]
      simp [hmax]
    have hbp : npBroadcastPair (0 : ℚ) (npNormalize (bincountList cur))
        (npNormalize (bincountList rf)) =
        .ok (npNormalize (bincountList cur), npNormalize (bincountList rf)) := by
      unfold npBroadcastPair
      simp only [if_pos hlenN]
    have hdist : (List.zipWith (fun x y => qabs (x - y))
        (npNormalize (bincountList cur)) (npNormalize (bincountList rf))).sum =
        histogramDelta cur rf := by
      rw [hNc, hNr, ← hmax, List.zipWith_map, List.zipWith_same]
      rfl
    unfold monitor_model_performance
    simp only [hmean, hbcc, hbcr, hbp]
    rw [hdist]

/-- Concrete instantiation of C6 (amended): a genuinely misaligned pair, and
an aligned pair on which the returned metrics are the specification's. -/
theorem claim6_witness :
    monitor_model_performance "kmeans" [0, 1, 0] [5, 5] = .error .broadcastError ∧
    monitor_model_performance "kmeans" [0, 1] [1, 1] =
      .ok ⟨agreementRatio [0, 1] [1, 1], histogramDelta [0, 1] [1, 1]⟩ :=
  ⟨(claim6_monitor_performance_behaviour "kmeans" [0, 1, 0] [5, 5]).1
      (by decide) (by decide) (by decide),
   (claim6_monitor_performance_behaviour "kmeans" [0, 1] [1, 1]).2
      rfl (by decide) (by decide) (by decide) (by decide)⟩

/-- The fixed feature set selected by `preprocess_data` in
`customer_segmentation.py`. -/
def requiredFeatures : List String :=
  ["Income", "Recency", "MntWines", "MntFruits", "MntMeatProducts",
   "MntFishProducts", "MntSweetProducts", "MntGoldProds", "NumDealsPurchases",
   "NumWebPurchases", "NumCatalogPurchases", "NumStorePurchases",
   "NumWebVisitsMonth"]

/-- pandas column selection `df[cols]`: raises a `KeyError` naming the
missing columns when any requested column is absent, otherwise yields the
selected columns. -/
def dfSelect (df : DataFrame) (cols : List String) :
    Except PyError (List (List ℚ)) :=
  if (cols.filter (fun c => (df.col c).isNone)).isEmpty then
    .ok (cols.map (fun c => (df.col c).getD []))
  else
    .error (.keyError (cols.filter (fun c => (df.col c).isNone)))

/-- Arithmetic mean of a column. -/
def meanQ (l : List ℚ) : ℚ :=
  l.sum / (l.length : ℚ)

/-- Population variance of a column (`ddof = 0`, as sklearn uses). -/
def varQ (l : List ℚ) : ℚ :=
  (l.map (fun x => (x - meanQ l) ^ 2)).sum / (l.length : ℚ)

/-- `StandardScaler().fit_transform`, column-wise: raises sklearn's
`ValueError` when the selected frame has zero rows, otherwise maps each value
to `(x - mean) / scale` with `scale = sqrt(variance)` and a zero variance
replaced by scale 1 (sklearn's `_handle_zeros_in_scale`).  The square root is
irrational on most inputs, so it is supplied as the function parameter
`sqrtQ`; no claim concerns the numeric output, only the failure behaviour. -/
def standardScalerFitTransform (sqrtQ : ℚ → ℚ) (cols : List (List ℚ)) :
    Except PyError (List (List ℚ)) :=
  if (cols.headD []).length = 0 then
    .error (.valueError "Found array with 0 sample(s)")
  else
    .ok (cols.map (fun c =>
      c.map (fun x => (x - meanQ c) / (if varQ c = 0 then 1 else sqrtQ (varQ c)))))

/-- `preprocess_data` from `customer_segmentation.py`: select the fixed
feature columns (pandas `KeyError` if one is missing), then standardize
(sklearn `ValueError` on a zero-row frame); on success returns the matrix and
the feature list. -/
def preprocess_data (sqrtQ : ℚ → ℚ) (df : DataFrame) :
    Except PyError (List (List ℚ) × List String) :=
  match dfSelect df requiredFeatures with
  | .error e => .error e
  | .ok sel =>
    match standardScalerFitTransform sqrtQ sel with
    | .error e => .error e
    | .ok X => .ok (X, requiredFeatures)

/-- A frame that has every required feature column but zero rows. -/
def dfEmptyRows : DataFrame :=
  ⟨requiredFeatures.map (fun c => (c, []))⟩

/-- A frame with one row but no `Income` column. -/
def dfNoIncome : DataFrame :=
  ⟨(requiredFeatures.drop 1).map (fun c => (c, [0]))⟩

/-- C5 counterexample: on the zero-row frame the code raises sklearn's
`ValueError`, not any `EmptyDatasetError` — no such error class exists in the
repository. -/
theorem claim5_counterexample :
    preprocess_data id dfEmptyRows =
        .error (.valueError "Found array with 0 sample(s)") ∧
    (Except.error (PyError.valueError "Found array with 0 sample(s)") :
        Except PyError (List (List ℚ) × List String)) ≠
      .error .emptyDatasetError := by
  constructor
  · with_unfolding_all rfl
  · intro h
    cases h

/-- C5 (amended): `preprocess_data` fails — producing no standardization
parameters — with sklearn's `ValueError` when the frame has all required
columns but zero rows, and with a pandas `KeyError` naming the absent columns
when a required feature column is missing; neither failure uses the spec's
`EmptyDatasetError` / `MissingFeatureError` names, which appear nowhere in
the code. -/
theorem claim5_preprocess_failure_modes (sqrtQ : ℚ → ℚ) (df : DataFrame) :
    ((∀ c ∈ requiredFeatures, df.col c = some []) →
      preprocess_data sqrtQ df =
        .error (.valueError "Found array with 0 sample(s)")) ∧
    (∀ c ∈ requiredFeatures, df.col c = none →
      ∃ missing, preprocess_data sqrtQ df = .error (.keyError missing) ∧
        c ∈ missing) := by
  constructor
  · intro h
    have hfilter : requiredFeatures.filter (fun c => (df.col c).isNone) = [] := by
      rw [List.filter_eq_nil_iff]
      intro c hc
      simp [h c hc]
    have hsel : dfSelect df requiredFeatures =
        .ok (requiredFeatures.map (fun c => (df.col c).getD [])) := by
      simp [dfSelect, hfilter]
    have hInc := h "Income" (by simp [requiredFeatures])
    have hhead : (requiredFeatures.map (fun c => (df.col c).getD [])).headD [] =
        ([] : List ℚ) := by
      simp [requiredFeatures, hInc]
    have hcond : ((requiredFeatures.map (fun c => (df.col c).getD [])).headD []).length
        = 0 := by
      rw [hhead]
      rfl
    unfold preprocess_data
    simp only [hsel]
    unfold standardScalerFitTransform
    simp only [if_pos hcond]
  · intro c hc hnone
    have hmem : c ∈ requiredFeatures.filter (fun d => (df.col d).isNone) := by
      rw [List.mem_filter]
      exact ⟨hc, by simp [hnone]⟩
    have hcond : (requiredFeatures.filter (fun d => (df.col d).isNone)).isEmpty
        = false := by
      cases hl : requiredFeatures.filter (fun d => (df.col d).isNone) with
      | nil => rw [hl] at hmem; cases hmem
      | cons a t => rfl
    have hsel : dfSelect df requiredFeatures =
        .error (.keyError (requiredFeatures.filter (fun d => (df.col d).isNone))) := by
      unfold dfSelect
      rw [hcond]
      simp
    exact ⟨requiredFeatures.filter (fun d => (df.col d).isNone),
      by unfold preprocess_data; simp only [hsel], hmem⟩

/-- Concrete instantiation of C5 (amended): the zero-row frame and the frame
missing its `Income` column. -/
theorem claim5_witness :
    preprocess_data id dfEmptyRows =
        .error (.valueError "Found array with 0 sample(s)") ∧
    ∃ missing, preprocess_data id dfNoIncome = .error (.keyError missing) ∧
      "Income" ∈ missing :=
  ⟨(claim5_preprocess_failure_modes id dfEmptyRows).1
      (by decide),
   (claim5_preprocess_failure_modes id dfNoIncome).2 "Income"
      (by decide) (by decide)⟩

/-- One row of the sqlite `customer_segments` table. -/
structure SegmentRow where
  customer_id : ℤ
  segment_id : ℤ
  confidence_score : Option ℚ
  model_version_id : ℤ
  created_at : ℕ
deriving DecidableEq

/-- The `assignments` DataFrame passed to `save_customer_segments`: the three
columns built in `train.py` plus the two scalar columns the function itself
assigns (`none` until assigned).  `datetime.now()` is modelled as an abstract
tick. -/
structure SegmentsDF where
  customer_id : List ℤ
  segment_id : List ℤ
  confidence_score : List (Option ℚ)
  model_version_id : Option ℤ := none
  created_at : Option ℕ := none
deriving DecidableEq

/-- The rows `DataFrame.to_sql` inserts: one per index, the scalar
`model_version_id` / `created_at` columns broadcast to every row. -/
def SegmentsDF.toRows (d : SegmentsDF) : List SegmentRow :=
  (List.zip d.customer_id (List.zip d.segment_id d.confidence_score)).map
    (fun p => ⟨p.1, p.2.1, p.2.2, d.model_version_id.getD 0, d.created_at.getD 0⟩)

/-- `pandas.DataFrame.to_sql(..., if_exists="append")` on an sqlite3
connection.  pandas wraps the whole insert in one transaction
(`SQLiteDatabase.run_transaction`): on success every row is committed, on a
mid-batch failure it rolls back and re-raises, leaving the table unchanged.
The `failure` flag injects such a mid-batch exception. -/
def to_sql_append (table : List SegmentRow) (rows : List SegmentRow)
    (failure : Bool) : Except PyError (List SegmentRow) :=
  if failure then .error (.valueError "simulated mid-batch insert failure")
  else .ok (table ++ rows)

/-- `Database.save_customer_segments`: assigns the `model_version_id` and
`created_at` columns on the caller's frame (a visible in-place mutation),
then appends the rows via `to_sql`; the `except` block swallows any exception
and returns `False`.  The result is the table state, the caller's (mutated)
frame, and the returned success flag. -/
def save_customer_segments (table : List SegmentRow) (segments_df : SegmentsDF)
    (v : ℤ) (now : ℕ) (failure : Bool) :
    List SegmentRow × SegmentsDF × Bool :=
  let df2 := { segments_df with model_version_id := some v, created_at := some now }
  match to_sql_append table df2.toRows failure with
  | .ok t2 => (t2, df2, true)
  | .error _ => (table, df2, false)

/-- C7: `save_customer_segments` is all-or-nothing per model version: when
the insert fails mid-batch, the invocation reports failure and the segment
store holds zero rows for a version that had none before (pandas runs the
whole insert inside a single transaction and rolls it back). -/
theorem claim7_save_segments_all_or_nothing
    (table : List SegmentRow) (d : SegmentsDF) (v : ℤ) (now : ℕ)
    (hfresh : ∀ r ∈ table, r.model_version_id ≠ v) :
    ((save_customer_segments table d v now true).1.filter
      (fun r => decide (r.model_version_id = v))) = [] ∧
    (save_customer_segments table d v now true).2.2 = false := by
  constructor
  · show table.filter _ = []
    rw [List.filter_eq_nil_iff]
    intro r hr
    simp [hfresh r hr]
  · rfl

/-- Concrete instantiation of C7: a two-row batch for fresh version 7 failing
mid-insert over an empty store. -/
theorem claim7_witness :
    ((save_customer_segments [] ⟨[1, 2], [0, 1], [none, none], none, none⟩
        7 5 true).1.filter (fun r => decide (r.model_version_id = 7))) = [] ∧
    (save_customer_segments [] ⟨[1, 2], [0, 1], [none, none], none, none⟩
        7 5 true).2.2 = false :=
  claim7_save_segments_all_or_nothing [] ⟨[1, 2], [0, 1], [none, none], none, none⟩
    7 5 (by simp)

/-- C10: `save_customer_segments` mutates the caller's frame in place: after
every invocation, failed or successful, the frame has gained a
`model_version_id` column set to the given version and a `created_at` column
set to the invocation time. -/
theorem claim10_save_segments_mutates_caller_frame
    (table : List SegmentRow) (d : SegmentsDF) (v : ℤ) (now : ℕ)
    (failure : Bool) :
    (save_customer_segments table d v now failure).2.1.model_version_id = some v ∧
    (save_customer_segments table d v now failure).2.1.created_at = some now := by
  cases failure <;> exact ⟨rfl, rfl⟩

/-- Minimum on ℚ by explicit comparison (kernel-reducible). -/
def qmin (a b : ℚ) : ℚ :=
  if a ≤ b then a else b

/-- Squared Euclidean distance between two points; the nearest centroid under
the Euclidean metric is the nearest under its square, which keeps everything
rational. -/
def sqDist (p q : List ℚ) : ℚ :=
  (List.zipWith (fun a b => (a - b) ^ 2) p q).sum

/-- Index of the nearest centroid (first index wins ties, as `argmin`
does). -/
def nearestIdx (cs : List (List ℚ)) (p : List ℚ) : ℕ :=
  (cs.foldl (fun (acc : ℕ × ℕ × ℚ) c =>
      if sqDist p c < acc.2.2 then (acc.1 + 1, acc.1, sqDist p c)
      else (acc.1 + 1, acc.2.1, acc.2.2))
    (0, 0, sqDist p (cs.headD []))).2.1

/-- Assignment step of Lloyd's iteration. -/
def assignLabels (cs : List (List ℚ)) (X : List (List ℚ)) : List ℕ :=
  X.map (nearestIdx cs)

/-- Mean of a nonempty point set, coordinate by coordinate. -/
def centroidOf (pts : List (List ℚ)) (dim : ℕ) : List ℚ :=
  (List.range dim).map (fun j => (pts.map (fun p => p.getD j 0)).sum / (pts.length : ℚ))

/-- Update step of Lloyd's iteration; an empty cluster keeps its previous
centroid. -/
def updateCentroids (k dim : ℕ) (X : List (List ℚ)) (labels : List ℕ)
    (old : List (List ℚ)) : List (List ℚ) :=
  (List.range k).map (fun i =>
    if (((List.zip X labels).filter (fun q => decide (q.2 = i))).map Prod.fst).isEmpty
    then old.getD i []
    else centroidOf (((List.zip X labels).filter (fun q => decide (q.2 = i))).map Prod.fst) dim)

/-- Lloyd's iteration with a fuel bound (sklearn's `max_iter`, default 300),
stopping early once the centroids are stable. -/
def lloydIter (k dim : ℕ) (X : List (List ℚ)) :
    ℕ → List (List ℚ) → List ℕ
  | 0, cs => assignLabels cs X
  | n + 1, cs =>
    if updateCentroids k dim X (assignLabels cs X) cs = cs then assignLabels cs X
    else lloydIter k dim X n (updateCentroids k dim X (assignLabels cs X) cs)

/-- Deterministic seeded initial centroids, standing in for sklearn's seeded
`k-means++` draw: any initialization that depends only on the seed and the
data fits the determinism claim; here centroid `i` is the data point at index
`(seed + i) mod n`. -/
def initCentroids (seed k : ℕ) (X : List (List ℚ)) : List (List ℚ) :=
  (List.range k).map (fun i => X.getD ((seed + i) % X.length) [])

/-- `KMeans(n_clusters, random_state).fit_predict`: with a fixed integer
`random_state` the initialization derives from it alone; with `None` sklearn
draws from numpy's global generator, modelled by the ambient `rng` state. -/
def kmeans_fit_predict (rng : ℕ) (random_state : Option ℕ) (n_clusters : ℕ)
    (X : List (List ℚ)) : List ℕ :=
  lloydIter n_clusters (X.headD []).length X 300
    (initCentroids (random_state.getD rng) n_clusters X)

/-- `perform_kmeans` from `customer_segmentation.py` (and the `train.py`
training call): `KMeans(n_clusters=..., random_state=42).fit_predict(X)`. -/
def perform_kmeans (rng : ℕ) (X : List (List ℚ)) (n_clusters : ℕ) : List ℕ :=
  kmeans_fit_predict rng (some 42) n_clusters X

/-- C8: the partitioning engine is deterministic: `perform_kmeans` pins
`random_state=42`, so two runs over the same input matrix under arbitrary —
possibly different — ambient numpy generator states produce identical label
sequences. -/
theorem claim8_kmeans_deterministic (X : List (List ℚ)) (n_clusters : ℕ)
    (rng1 rng2 : ℕ) :
    perform_kmeans rng1 X n_clusters = perform_kmeans rng2 X n_clusters := rfl

/-- Indices of the `eps`-neighborhood of point `i` (sklearn's
`radius_neighbors` uses distance `≤ eps` and includes the point itself), for
one-dimensional data, where the Euclidean distance is `|x - y|`. -/
def rNeighbors (xs : List ℚ) (eps : ℚ) (i : ℕ) : List ℕ :=
  (List.range xs.length).filter
    (fun j => decide (qabs (xs.getD i 0 - xs.getD j 0) ≤ eps))

/-- DBSCAN core-point test: at least `min_samples` points — the point itself
included, as sklearn counts — within `eps`. -/
def isCore (xs : List ℚ) (eps : ℚ) (ms i : ℕ) : Bool :=
  decide (ms ≤ (rNeighbors xs eps i).length)

/-- One propagation step of the core-point components: every core point
adopts the smallest representative among its core neighbors. -/
def coreStep (xs : List ℚ) (eps : ℚ) (ms : ℕ) (rep : List ℕ) : List ℕ :=
  (List.range xs.length).map (fun i =>
    if isCore xs eps ms i then
      ((rNeighbors xs eps i).filter (fun j => isCore xs eps ms j)).foldl
        (fun acc j => Nat.min acc (rep.getD j i)) (rep.getD i i)
    else rep.getD i i)

/-- Iterated propagation; after `n` steps (`n` = number of points) every core
point holds the smallest core index of its eps-connected core component. -/
def coreRep (xs : List ℚ) (eps : ℚ) (ms : ℕ) : ℕ → List ℕ
  | 0 => List.range xs.length
  | n + 1 => coreStep xs eps ms (coreRep xs eps ms n)

/-- First-occurrence deduplication. -/
def dedupFirst {α : Type} [DecidableEq α] : List α → List α
  | [] => []
  | a :: t => a :: (dedupFirst t).filter (fun b => decide (b ≠ a))

/-- Index of the first occurrence of `a`. -/
def idxOf (a : ℕ) : List ℕ → ℕ
  | [] => 0
  | b :: t => if a = b then 0 else idxOf a t + 1

/-- `DBSCAN(eps, min_samples).fit_predict` for one-dimensional data: clusters
are the eps-connected components of core points, numbered in scan order as
sklearn numbers them; a non-core point within `eps` of a core point joins
that core point's cluster (sklearn assigns whichever cluster reaches it
first — here the smallest-index core neighbor; unique for the inputs
considered); all remaining points are noise, labeled `-1`. -/
def dbscan_fit_predict (xs : List ℚ) (eps : ℚ) (ms : ℕ) : List ℤ :=
  (List.range xs.length).map (fun i =>
    if isCore xs eps ms i then
      (idxOf ((coreRep xs eps ms xs.length).getD i i)
        (dedupFirst ((List.range xs.length).filterMap (fun j =>
          if isCore xs eps ms j then some ((coreRep xs eps ms xs.length).getD j j)
          else none))) : ℤ)
    else
      match (rNeighbors xs eps i).find? (fun j => isCore xs eps ms j) with
      | some j =>
        (idxOf ((coreRep xs eps ms xs.length).getD j j)
          (dedupFirst ((List.range xs.length).filterMap (fun j2 =>
            if isCore xs eps ms j2 then some ((coreRep xs eps ms xs.length).getD j2 j2)
            else none))) : ℤ)
      | none => -1)

/-- Mean absolute-difference distance from `x` to the points `ys`: the
one-dimensional Euclidean metric, kept rational. -/
def meanDistTo (x : ℚ) (ys : List ℚ) : ℚ :=
  (ys.map (fun y => qabs (x - y))).sum / (ys.length : ℚ)

/-- The distinct labels, in order of first appearance. -/
def distinctLabels (labels : List ℤ) : List ℤ :=
  dedupFirst labels

/-- `sklearn.metrics.silhouette_samples` at one point: 0 for a singleton
cluster; otherwise `(b - a) / max a b` (0 if that maximum is 0), where `a` is
the mean distance to the other members of the point's own cluster and `b` is
the smallest mean distance to the members of another label — every label,
the noise label `-1` included, counting as a cluster. -/
def silhouetteSample (xs : List ℚ) (labels : List ℤ) (i : ℕ) : ℚ :=
  if ((((List.zip xs labels).eraseIdx i).filter
        (fun p => decide (p.2 = labels.getD i 0))).map Prod.fst).length = 0 then 0
  else
    (fun a b => if qmax a b = 0 then 0 else (b - a) / qmax a b)
      (meanDistTo (xs.getD i 0)
        ((((List.zip xs labels).eraseIdx i).filter
          (fun p => decide (p.2 = labels.getD i 0))).map Prod.fst))
      (((((distinctLabels labels).filter
            (fun l => decide (l ≠ labels.getD i 0))).map (fun l =>
          meanDistTo (xs.getD i 0)
            (((List.zip xs labels).filter (fun p => decide (p.2 = l))).map
              Prod.fst)))).foldr qmin
        ((((distinctLabels labels).filter
            (fun l => decide (l ≠ labels.getD i 0))).map (fun l =>
          meanDistTo (xs.getD i 0)
            (((List.zip xs labels).filter (fun p => decide (p.2 = l))).map
              Prod.fst))).headD 0))

/-- `sklearn.metrics.silhouette_score`: the mean of the per-sample silhouette
values; raises a `ValueError` unless `2 ≤ n_labels ≤ n_samples - 1`. -/
def silhouette_score (xs : List ℚ) (labels : List ℤ) : Except PyError ℚ :=
  if 2 ≤ (distinctLabels labels).length ∧
      (distinctLabels labels).length ≤ xs.length - 1 then
    .ok (((List.range xs.length).map (silhouetteSample xs labels)).sum /
      (xs.length : ℚ))
  else .error (.valueError "Number of labels is invalid")

/-- The density-model scoring step of `train_models` (`train.py`, the DBSCAN
fit at lines 67-68 and the score at line 81): DBSCAN with
`eps=0.5, min_samples=5`, then `silhouette_score(X_pca, dbscan_labels)` over
ALL points, the noise label `-1` included as if it were a cluster.
One-dimensional data stands in for the two-dimensional PCA output; every
formula involved is dimension-generic. -/
def trainDbscanScore (X : List ℚ) : Except PyError ℚ :=
  silhouette_score X (dbscan_fit_predict X (1/2) 5)

/-- Specification-side definition (from the spec's words): the silhouette
coefficient over the non-noise points only — all points labeled `-1` are
removed before scoring. -/
def dbscanScoreNonNoise (X : List ℚ) (labels : List ℤ) : Except PyError ℚ :=
  silhouette_score
    (((List.zip X labels).filter (fun p => decide (p.2 ≠ -1))).map Prod.fst)
    (((List.zip X labels).filter (fun p => decide (p.2 ≠ -1))).map Prod.snd)

/-- Two five-point clusters at 0 and 100 with one isolated point at 50: the
isolated point is DBSCAN noise under `eps=0.5, min_samples=5`. -/
def X0 : List ℚ :=
  [0, 0, 0, 0, 0, 100, 100, 100, 100, 100, 50]

set_option maxRecDepth 100000 in
set_option maxHeartbeats 1000000 in
/-- C4: the reported DBSCAN silhouette is NOT computed over the non-noise
points only.  On `X0` the DBSCAN labels contain the noise label `-1`, the
training code's score treats the noise point as a singleton cluster and
reports `10/11`, while the score over the non-noise points — what the claim
and the spec require — is `1`. -/
theorem claim4_silhouette_includes_noise :
    dbscan_fit_predict X0 (1/2) 5 = [0, 0, 0, 0, 0, 1, 1, 1, 1, 1, -1] ∧
    (-1 : ℤ) ∈ dbscan_fit_predict X0 (1/2) 5 ∧
    trainDbscanScore X0 = .ok (10 / 11) ∧
    dbscanScoreNonNoise X0 (dbscan_fit_predict X0 (1/2) 5) = .ok 1 ∧
    (10 / 11 : ℚ) ≠ 1 := by
  refine ⟨by with_unfolding_all rfl, ?_, by with_unfolding_all rfl,
    by with_unfolding_all rfl, by norm_num⟩
  rw [show dbscan_fit_predict X0 (1/2) 5 = [0, 0, 0, 0, 0, 1, 1, 1, 1, 1, -1] from
    by with_unfolding_all rfl]
  decide
